import Mathlib

/-!
Verification of the pack-design frontend workflow logic (`static/app.js`).

The JavaScript source is shallowly embedded: each JS function used by the
properties below is translated to a Lean definition of the same name.
JavaScript strings are modelled by Lean `String`, and the JS string methods
(`trim`, `slice`, `split`, `startsWith`, truthiness) are modelled by explicit
helper functions over the character sequence (`String.data`), matching the
code-unit semantics of the JS methods.  The external HTTP endpoints
(`/api/cad/model/generate`, `/api/cad/model/fix-code`, …) are abstracted as
oracles: a function from the attempt number to the JSON response the call
returns.  The cooperative cancellation flag `stepCadLoopStopRequested` is
modelled by an optional trigger point `stopAt`: the check before attempt `i`
reads `true` exactly when `stopAt = some k` with `k ≤ i` (the flag is only
ever set, never cleared, while the loop runs).  Backend behaviour that is not
part of the frontend source (the content-addressed CAD cache and the
image-append side effects) is modelled separately from the specification text
and marked as such in its doc comment.
-/

namespace PackDesign


/-- Truthiness of a JavaScript string: the empty string is the only falsy string. -/
def jsTruthy (s : String) : Bool := s != ""

/-- JavaScript `value.startsWith(pre)`, read off the character sequence. -/
def jsStartsWith (s pre : String) : Bool := pre.data.isPrefixOf s.data

/-- JavaScript `s.trim()`: strip whitespace from both ends of the character sequence. -/
def jsTrim (s : String) : String :=
  ⟨((s.data.dropWhile Char.isWhitespace).reverse.dropWhile Char.isWhitespace).reverse⟩

/-- JavaScript `s.slice(0, n)`: the first `n` code units of `s`. -/
def jsSlice (s : String) (n : Nat) : String := ⟨s.data.take n⟩

/-- JavaScript `s.split(sep)[0]` for a one-character separator: the prefix of `s`
before the first occurrence of `sep` (the whole string when `sep` is absent). -/
def jsSplitHead (s : String) (sep : Char) : String := ⟨s.data.takeWhile (· != sep)⟩

/-- `normalizeImageSource` from `static/app.js`:
returns `""` for a falsy input, the input unchanged when it already starts with
`"http"` or `"data:image"`, and otherwise prefixes `"data:image/png;base64,"`. -/
def normalizeImageSource (value : String) : String :=
  if ¬ jsTruthy value then ""
  else if jsStartsWith value "http" || jsStartsWith value "data:image" then value
  else "data:image/png;base64," ++ value

/-- `errorSummary` from `static/app.js`: trim the text, return `""` when nothing
is left, otherwise the first line cut to at most 140 characters. -/
def errorSummary (text : String) : String :=
  let t := jsTrim text
  if ¬ jsTruthy t then ""
  else jsSlice (jsSplitHead t '\n') 140

/-- `BASELINE_MIN_DELAY_MS` from `static/app.js`. -/
def BASELINE_MIN_DELAY_MS : Nat := 3000

/-- Status of one entry of `cadAttemptStates` in `static/app.js`. -/
inductive AttemptStatus
  | inactive
  | running
  | success
  | failed
  | cancelled
deriving DecidableEq, Repr

/-- One entry of the `cadAttemptStates` array in `static/app.js`. -/
structure Attempt where
  status : AttemptStatus
  errorText : String
  fullError : String
  codeText : String
deriving DecidableEq, Repr

/-- A partial record passed as `patch` to `updateAttemptStatus`; `none` fields are
absent from the JS object literal and keep the previous value under spread. -/
structure AttemptPatch where
  status : Option AttemptStatus
  errorText : Option String
  fullError : Option String
  codeText : Option String
deriving DecidableEq, Repr

/-- JavaScript object spread `{ ...old, ...patch }` for an attempt record. -/
def applyPatch (a : Attempt) (p : AttemptPatch) : Attempt :=
  { status := p.status.getD a.status
    errorText := p.errorText.getD a.errorText
    fullError := p.fullError.getD a.fullError
    codeText := p.codeText.getD a.codeText }

/-- `updateAttemptStatus` from `static/app.js`: no-op when `index` is outside
`0 .. length-1`, otherwise merge the patch into the entry at `index`. -/
def updateAttemptStatus (attempts : List Attempt) (index : Int) (patch : AttemptPatch) :
    List Attempt :=
  if h : 0 ≤ index ∧ index.toNat < attempts.length then
    attempts.set index.toNat (applyPatch (attempts.get ⟨index.toNat, h.2⟩) patch)
  else
    attempts

/-- The fresh attempt record produced by `resetCadAttemptsUi`. -/
def inactiveAttempt : Attempt :=
  { status := .inactive, errorText := "", fullError := "", codeText := "" }

/-- `resetCadAttemptsUi` from `static/app.js`: ten inactive attempt records
(it also hides the unresolved banner, reflected in `generateStepCad` below). -/
def resetCadAttemptsUi : List Attempt := List.replicate 10 inactiveAttempt

/-- Shape of a JSON response of `/api/cad/model/generate` or
`/api/cad/model/fix-code`; absent («undefined») string fields are `""`. -/
structure CadApiResult where
  success : Bool
  step_file : String
  cad_code : String
  error_detail : String
  cached : Bool
  message : String
deriving DecidableEq, Repr

/-- One HTTP request issued by the attempt loop of `generateStepCad`. -/
inductive CadRequest
  | generate (prompt : String)
  | fixCode (cad_code : String) (error_detail : String) (prompt : String)
deriving DecidableEq, Repr

/-- Reading of `stepCadLoopStopRequested` at the check before attempt `i`:
`stopAt = some k` means the stop button was clicked between the checks for
attempts `k-1` and `k`, so every later check reads `true`. -/
def stopSeen (stopAt : Option Nat) (i : Nat) : Bool :=
  match stopAt with
  | none => false
  | some k => decide (k ≤ i)

/-- State left behind by the `for` loop inside `generateStepCad`. -/
structure LoopOut where
  attempts : List Attempt
  requests : List CadRequest
  success : Bool
  cancelledBreak : Bool
  currentCode : String
  currentError : String
  panel : Option (String × String)
  result : Option CadApiResult
deriving DecidableEq, Repr

/-- The `for (let i = 0; i < 10; i += 1)` loop of `generateStepCad`, starting at
attempt `i` with `fuel` iterations left.  `panel` is the execution-issue panel:
`some (err, code)` when visible (`renderCadExecutionIssue(err', code)` stores
`err'.trim()`), `none` when hidden. -/
def loopFrom (api : Nat → CadApiResult) (stopAt : Option Nat) (prompt : String) :
    Nat → Nat → List Attempt → String → String → Option (String × String) → LoopOut
  | _i, 0, attempts, curCode, curError, panel =>
    { attempts := attempts, requests := [], success := false, cancelledBreak := false,
      currentCode := curCode, currentError := curError, panel := panel, result := none }
  | i, fuel + 1, attempts, curCode, curError, panel =>
    if stopSeen stopAt i then
      { attempts := updateAttemptStatus attempts (i : Int)
          { status := some .cancelled, errorText := none, fullError := none, codeText := none },
        requests := [], success := false, cancelledBreak := true,
        currentCode := curCode, currentError := curError, panel := panel, result := none }
    else
      let attempts1 := updateAttemptStatus attempts (i : Int)
        { status := some .running, errorText := some "", fullError := some "",
          codeText := some "" }
      let req := if i = 0 then CadRequest.generate prompt
                 else CadRequest.fixCode curCode curError prompt
      let res := api i
      if res.success = true ∧ res.step_file ≠ "" then
        { attempts := updateAttemptStatus attempts1 (i : Int)
            { status := some .success, errorText := some "Success", fullError := some "",
              codeText := some res.cad_code },
          requests := [req], success := true, cancelledBreak := false,
          currentCode := curCode, currentError := curError, panel := none, result := some res }
      else
        let newCode := jsTrim (if jsTruthy res.cad_code then res.cad_code else curCode)
        let newError := jsTrim (if jsTruthy res.error_detail then res.error_detail
                                else "CAD execution failed.")
        let attempts2 := updateAttemptStatus attempts1 (i : Int)
          { status := some .failed, errorText := some (errorSummary newError),
            fullError := some newError, codeText := some newCode }
        let rest := loopFrom api stopAt prompt (i + 1) fuel attempts2 newCode newError
          (some (jsTrim newError, newCode))
        { rest with requests := req :: rest.requests }

/-- JavaScript numeric truthiness of `s.approved_image_version` (`null`/`0` are falsy). -/
def numTruthy (v : Option Nat) : Bool := v.getD 0 != 0

/-- The globals read by `canGenerateStepCadNow` and `generateStepCad`. -/
structure GenCtx where
  sessionExists : Bool
  approved_image_version : Option Nat
  operationInFlight : Bool
  stepCadLoopRunning : Bool
  currentStepCadPrompt : String
deriving Repr

/-- `canGenerateStepCadNow` from `static/app.js`. -/
def canGenerateStepCadNow (ctx : GenCtx) : Bool :=
  if ¬ ctx.sessionExists then false
  else numTruthy ctx.approved_image_version
       && !ctx.operationInFlight && !ctx.stepCadLoopRunning

/-- The system message emitted by the precondition-failure branch of `generateStepCad`. -/
def rejectMessage (ctx : GenCtx) : String :=
  if ¬ (ctx.sessionExists && numTruthy ctx.approved_image_version) then
    "Approve a version first before generating STEP CAD."
  else if ctx.operationInFlight then
    "Another operation is running. Please wait."
  else
    "STEP CAD generation is not available yet."

/-- Observable outcome of one invocation of `generateStepCad`. -/
structure RunOut where
  attempts : List Attempt
  requests : List CadRequest
  messages : List String
  unresolvedBanner : Bool
  success : Bool
  cancelledBreak : Bool
  panel : Option (String × String)
  currentCode : String
  currentError : String
  result : Option CadApiResult
  rejected : Bool
deriving DecidableEq, Repr

/-- `generateStepCad` from `static/app.js`, up to the trailing `refreshSession()`
(whose effect depends only on backend state).  `prevAttempts`, `prevPanel` and
`prevBanner` are the values of the corresponding UI state before the call. -/
def generateStepCad (ctx : GenCtx) (api : Nat → CadApiResult) (stopAt : Option Nat)
    (prevAttempts : List Attempt) (prevPanel : Option (String × String))
    (prevBanner : Bool) : RunOut :=
  if ¬ canGenerateStepCadNow ctx then
    { attempts := prevAttempts, requests := [], messages := [rejectMessage ctx],
      unresolvedBanner := prevBanner, success := false, cancelledBreak := false,
      panel := prevPanel, currentCode := "", currentError := "", result := none,
      rejected := true }
  else
    let prompt := jsTrim ctx.currentStepCadPrompt
    if ¬ jsTruthy prompt then
      { attempts := prevAttempts, requests := [],
        messages := ["CAD Query prompt cannot be empty."],
        unresolvedBanner := prevBanner, success := false, cancelledBreak := false,
        panel := prevPanel, currentCode := "", currentError := "", result := none,
        rejected := true }
    else
      let out := loopFrom api stopAt prompt 0 10 resetCadAttemptsUi "" "" prevPanel
      let banner := !out.success && !stopSeen stopAt 10
      { attempts := out.attempts, requests := out.requests,
        messages := ["Starting STEP CAD auto-fix attempts (max 10)."]
          ++ (if banner then ["Unresolved after 10 attempts."] else []),
        unresolvedBanner := banner, success := out.success,
        cancelledBreak := out.cancelledBreak, panel := out.panel,
        currentCode := out.currentCode, currentError := out.currentError,
        result := out.result, rejected := false }

/-- A context in which `canGenerateStepCadNow` holds, used in concrete instantiations. -/
def ctxOk : GenCtx :=
  { sessionExists := true, approved_image_version := some 1, operationInFlight := false,
    stepCadLoopRunning := false, currentStepCadPrompt := "p" }

/-- A failing kernel response, used in concrete instantiations. -/
def failRes : CadApiResult :=
  { success := false, step_file := "", cad_code := "c1", error_detail := "e1\nrest",
    cached := false, message := "" }

/-- A successful kernel response, used in concrete instantiations. -/
def okRes : CadApiResult :=
  { success := true, step_file := "out.step", cad_code := "okcode", error_detail := "",
    cached := false, message := "done" }

/-- An oracle on which every attempt fails. -/
def apiAllFail : Nat → CadApiResult := fun _ => failRes

/-- An oracle on which attempt 0 fails and every later attempt succeeds. -/
def apiFailThenOk : Nat → CadApiResult := fun i => if i = 0 then failRes else okRes

/-- A context in which another operation is in flight, used in concrete instantiations. -/
def ctxBusy : GenCtx := { ctxOk with operationInFlight := true }

/-- One observable step of `refreshSessionWithBaselineDelay` in `static/app.js`. -/
inductive BaselineEvent
  | setLoading (isOn : Bool)
  | refreshCall
  | floorWait (ms : Nat)
deriving DecidableEq, Repr

/-- `refreshSessionWithBaselineDelay` from `static/app.js` as its sequence of
observable steps: turn the loading state on, run the real `refreshSession()`
call (which takes `elapsed` ms), wait out the remaining floor if any, turn the
loading state off. -/
def refreshSessionWithBaselineDelay (elapsed : Nat) : List BaselineEvent :=
  let remain : Int := max 0 ((BASELINE_MIN_DELAY_MS : Int) - (elapsed : Int))
  [BaselineEvent.setLoading true, BaselineEvent.refreshCall]
    ++ (if remain > 0 then [BaselineEvent.floorWait remain.toNat] else [])
    ++ [BaselineEvent.setLoading false]

/-- Total milliseconds spent in `floorWait` steps of a trace. -/
def waitTotal (tr : List BaselineEvent) : Nat :=
  (tr.map fun ev => match ev with | BaselineEvent.floorWait m => m | _ => 0).sum

/-- Test for a `floorWait` step. -/
def isFloorWait : BaselineEvent → Bool
  | BaselineEvent.floorWait _ => true
  | _ => false

/-- One entry of `session.images` as the frontend sees it. -/
structure ImageArtifact where
  image_id : String
  image_url_or_base64 : String
  version : Nat
  prompt : String
deriving DecidableEq, Repr

/-- The session fields `generate2D` and `updateFromSession` touch. -/
structure SessionState where
  step : Nat
  images : List ImageArtifact
  lock_confirmed : Bool
  lock_question_asked : Bool
  design_summary : Option String
  approved_image_id : Option String
  approved_image_version : Option Nat
  approved_image_local_path : Option String
  cad_step_file : Option String
  cad_model_code : Option String
  cad_model_last_error : Option String
  cad_sheet_image_url_or_base64 : Option String
deriving DecidableEq, Repr

/-- The immediate local-state update inside `generate2D` in `static/app.js`:
append the new image, advance to step 4, clear the lock flags, the design
summary and every `approved_image_*` field. -/
def generate2DLocalUpdate (s : SessionState) (res_image_id res_data : String)
    (res_version : Nat) (prompt : String) : SessionState :=
  { s with
    images := s.images ++ [⟨res_image_id, res_data, res_version, prompt⟩],
    step := 4,
    lock_confirmed := false,
    lock_question_asked := false,
    design_summary := none,
    approved_image_id := none,
    approved_image_version := none,
    approved_image_local_path := none }

/-- Modelled from the spec: the backend handler of `POST /api/image/generate`
(the Artifact Store `append` operation) is not under `src/`.  Per the spec,
appending a new image artifact is append-only and, when an approval exists,
clears `approved_version` and `cad_result` (the downstream CAD result fields)
and resets the CAD attempt history. -/
def backendAppendImage (s : SessionState) (img : ImageArtifact) : SessionState :=
  { s with
    images := s.images ++ [img],
    approved_image_id := none,
    approved_image_version := none,
    approved_image_local_path := none,
    cad_step_file := none,
    cad_model_code := none,
    cad_model_last_error := none,
    cad_sheet_image_url_or_base64 := none }

/-- `generate2D` from `static/app.js` as a state transformer: the local update
runs against the browser copy of the session, and the `refreshSession()` that
follows replaces the browser copy with the backend session (whose append
side effect is spec-modelled by `backendAppendImage`).  Returns the pair
(browser copy after the immediate update, session after the refresh). -/
def generate2D (uiState backendState : SessionState) (res_image_id res_data : String)
    (res_version : Nat) (prompt : String) : SessionState × SessionState :=
  (generate2DLocalUpdate uiState res_image_id res_data res_version prompt,
   backendAppendImage backendState ⟨res_image_id, res_data, res_version, prompt⟩)

/-- A session with an approved version and a CAD result, used in concrete
instantiations. -/
def sessionApproved : SessionState :=
  { step := 4,
    images := [⟨"img1", "d1", 1, "p1"⟩, ⟨"img2", "d2", 2, "p2"⟩],
    lock_confirmed := false,
    lock_question_asked := false,
    design_summary := none,
    approved_image_id := some "img2",
    approved_image_version := some 2,
    approved_image_local_path := some "/tmp/img2",
    cad_step_file := some "model.step",
    cad_model_code := some "code",
    cad_model_last_error := none,
    cad_sheet_image_url_or_base64 := some "sheet" }

/-- Modelled from the spec: the CAD cache key is a deterministic hash of the
approved artifact content identity and the trimmed generation prompt; the hash
is modelled by the pair itself. -/
def cacheKey (artifactContentId prompt : String) : String × String :=
  (artifactContentId, jsTrim prompt)

/-- Modelled from the spec: look a key up in the cache, yielding the stored
(step file, CAD code) entry. -/
def cacheLookup (cache : List ((String × String) × (String × String)))
    (k : String × String) : Option (String × String) :=
  (cache.find? fun entry => entry.1 == k).map fun entry => entry.2

/-- Modelled from the spec: the backend handler behind `/api/cad/model/generate`
is not under `src/`.  Per the spec, on a cache hit it returns the stored artifact
immediately with `cached=true` and does not run generation; on a miss it runs
generation (abstracted as the `run` argument) and stores a cache entry on first
success. -/
def backendCadGenerate (cache : List ((String × String) × (String × String)))
    (artifactContentId prompt : String) (run : CadApiResult) :
    CadApiResult × List ((String × String) × (String × String)) :=
  match cacheLookup cache (cacheKey artifactContentId prompt) with
  | some entry =>
    ({ success := true, step_file := entry.1, cad_code := entry.2, error_detail := "",
       cached := true, message := "Returned cached STEP model." }, cache)
  | none =>
    if run.success = true ∧ run.step_file ≠ "" then
      (run, (cacheKey artifactContentId prompt, (run.step_file, run.cad_code)) :: cache)
    else
      (run, cache)

/-- A first CAD run in which attempt 0 fails and attempt 1 succeeds: its recorded
history holds a failed and a successful attempt. -/
def firstRun : RunOut := generateStepCad ctxOk apiFailThenOk none resetCadAttemptsUi none false

/-- The cache after the first run's success stored its entry. -/
def cacheAfterFirst : List ((String × String) × (String × String)) :=
  (backendCadGenerate [] "art1" "p" okRes).2

/-- The oracle of the second, identical invocation: the backend answers every
call from the now-populated cache. -/
def apiSecond : Nat → CadApiResult :=
  fun _ => (backendCadGenerate cacheAfterFirst "art1" "p" failRes).1

/-- The second CAD run, starting from the first run's recorded attempt history. -/
def secondRun : RunOut :=
  generateStepCad ctxOk apiSecond none firstRun.attempts firstRun.panel
    firstRun.unresolvedBanner

theorem jsTruthy_iff {s : String} : jsTruthy s = true ↔ s ≠ "" := by
  simp [jsTruthy]

theorem jsTruthy_append_left {p v : String} (hp : p ≠ "") : jsTruthy (p ++ v) = true := by
  rw [jsTruthy_iff]
  intro h
  apply hp
  rw [String.ext_iff] at h ⊢
  simpa using List.append_eq_nil.mp (by simpa using h) |>.1

theorem jsStartsWith_of_extend {p q v : String} (h : p.data <+: q.data) :
    jsStartsWith (q ++ v) p = true := by
  unfold jsStartsWith
  rw [ List.isPrefixOf_iff_prefix]
  refine h.trans ?_
  rw [String.data_append]
  exact List.prefix_append q.data v.data

theorem updateAttemptStatus_length (attempts : List Attempt) (index : Int) (p : AttemptPatch) :
    (updateAttemptStatus attempts index p).length = attempts.length := by
  unfold updateAttemptStatus
  split <;> simp

theorem updateAttemptStatus_out_of_range (attempts : List Attempt) (index : Int)
    (p : AttemptPatch) (h : index < 0 ∨ (attempts.length : Int) ≤ index) :
    updateAttemptStatus attempts index p = attempts := by
  unfold updateAttemptStatus
  rw [dif_neg]
  rintro ⟨h0, hlt⟩
  rcases h with h | h
  · omega
  · omega

theorem updateAttemptStatus_getElem?_ne (attempts : List Attempt) (i : Nat) (p : AttemptPatch)
    (j : Nat) (hne : j ≠ i) :
    (updateAttemptStatus attempts (i : Int) p)[j]? = attempts[j]? := by
  unfold updateAttemptStatus
  split
  · next h =>
    rw [List.getElem?_set_ne]
    omega
  · rfl

theorem updateAttemptStatus_getElem?_self (attempts : List Attempt) (i : Nat)
    (p : AttemptPatch) :
    (updateAttemptStatus attempts (i : Int) p)[i]? =
      (attempts[i]?).map (fun a => applyPatch a p) := by
  unfold updateAttemptStatus
  split
  · next h =>
    have hi : i < attempts.length := by omega
    simp only [Int.toNat_natCast]
    rw [List.getElem?_set_self (by simpa using hi), List.getElem?_eq_getElem hi]
    simp [List.get_eq_getElem]
  · next h =>
    have hi : attempts.length ≤ i := by omega
    rw [List.getElem?_eq_none hi]
    rfl

theorem loop_attempts_length (api : Nat → CadApiResult) (stopAt : Option Nat) (prompt : String) :
    ∀ (fuel i : Nat) (atts : List Attempt) (c e : String) (panel : Option (String × String)),
      (loopFrom api stopAt prompt i fuel atts c e panel).attempts.length = atts.length := by
  intro fuel
  induction fuel with
  | zero => intro i atts c e panel; rfl
  | succ f ih =>
    intro i atts c e panel
    simp only [loopFrom]
    split
    · simp [updateAttemptStatus_length]
    · split
      · simp [updateAttemptStatus_length]
      · simp only []
        rw [ih]
        simp [updateAttemptStatus_length]

theorem loop_requests_length_le (api : Nat → CadApiResult) (stopAt : Option Nat)
    (prompt : String) :
    ∀ (fuel i : Nat) (atts : List Attempt) (c e : String) (panel : Option (String × String)),
      (loopFrom api stopAt prompt i fuel atts c e panel).requests.length ≤ fuel := by
  intro fuel
  induction fuel with
  | zero => intro i atts c e panel; simp [loopFrom]
  | succ f ih =>
    intro i atts c e panel
    simp only [loopFrom]
    split
    · simp
    · split
      · simp
      · simp only [List.length_cons]
        exact Nat.succ_le_succ (ih _ _ _ _ _)

theorem loop_preserve_lt (api : Nat → CadApiResult) (stopAt : Option Nat) (prompt : String) :
    ∀ (fuel i : Nat) (atts : List Attempt) (c e : String) (panel : Option (String × String))
      (j : Nat), j < i →
      (loopFrom api stopAt prompt i fuel atts c e panel).attempts[j]? = atts[j]? := by
  intro fuel
  induction fuel with
  | zero => intro i atts c e panel j hj; rfl
  | succ f ih =>
    intro i atts c e panel j hj
    simp only [loopFrom]
    split
    · exact updateAttemptStatus_getElem?_ne _ _ _ _ (by omega)
    · split
      · rw [updateAttemptStatus_getElem?_ne _ _ _ _ (by omega),
          updateAttemptStatus_getElem?_ne _ _ _ _ (by omega)]
      · rw [ih _ _ _ _ _ _ (by omega),
          updateAttemptStatus_getElem?_ne _ _ _ _ (by omega),
          updateAttemptStatus_getElem?_ne _ _ _ _ (by omega)]

theorem applyPatch_all_some (b : Attempt) (st : AttemptStatus) (s1 s2 s3 : String) :
    applyPatch b ⟨some st, some s1, some s2, some s3⟩ =
      { status := st, errorText := s1, fullError := s2, codeText := s3 } := rfl

theorem applyPatch_status_only (b : Attempt) (st : AttemptStatus) :
    applyPatch b ⟨some st, none, none, none⟩ = { b with status := st } := rfl

theorem status_mem_update {atts : List Attempt} {i j : Nat} {p : AttemptPatch} {a : Attempt}
    (hj : (updateAttemptStatus atts (i : Int) p)[j]? = some a) :
    (j ≠ i ∧ atts[j]? = some a) ∨ (j = i ∧ ∃ b, atts[j]? = some b ∧ a = applyPatch b p) := by
  by_cases hji : j = i
  · subst hji
    rw [updateAttemptStatus_getElem?_self] at hj
    rcases h' : atts[j]? with _ | b
    · rw [h'] at hj; exact absurd hj (by simp)
    · rw [h'] at hj
      refine Or.inr ⟨rfl, b, rfl, ?_⟩
      simpa using hj.symm
  · rw [updateAttemptStatus_getElem?_ne _ _ _ _ hji] at hj
    exact Or.inl ⟨hji, hj⟩

theorem status_mem_double_update {atts : List Attempt} {i j : Nat} {p1 p2 : AttemptPatch}
    {a : Attempt}
    (hj : (updateAttemptStatus (updateAttemptStatus atts (i : Int) p1) (i : Int) p2)[j]? =
      some a) :
    (j ≠ i ∧ atts[j]? = some a) ∨ (j = i ∧ ∃ b, a = applyPatch b p2) := by
  rcases status_mem_update hj with ⟨hne, h⟩ | ⟨rfl, b, hb, rfl⟩
  · rcases status_mem_update h with ⟨_, h2⟩ | ⟨heq, _⟩
    · exact Or.inl ⟨hne, h2⟩
    · exact absurd heq hne
  · exact Or.inr ⟨rfl, b, rfl⟩

theorem loop_no_running (api : Nat → CadApiResult) (stopAt : Option Nat) (prompt : String) :
    ∀ (fuel i : Nat) (atts : List Attempt) (c e : String) (panel : Option (String × String)),
      (∀ (j : Nat) (a : Attempt), atts[j]? = some a → a.status ≠ AttemptStatus.running) →
      ∀ (j : Nat) (a : Attempt),
        (loopFrom api stopAt prompt i fuel atts c e panel).attempts[j]? = some a →
        a.status ≠ AttemptStatus.running := by
  intro fuel
  induction fuel with
  | zero =>
    intro i atts c e panel hP j a hj
    simp only [loopFrom] at hj
    exact hP j a hj
  | succ f ih =>
    intro i atts c e panel hP j a hj
    simp only [loopFrom] at hj
    split at hj <;> try dsimp only at hj
    · rcases status_mem_update hj with ⟨_, h⟩ | ⟨rfl, b, hb, rfl⟩
      · exact hP _ _ h
      · rw [applyPatch_status_only]; simp
    · split at hj
      · rcases status_mem_double_update hj with ⟨_, h⟩ | ⟨rfl, b, rfl⟩
        · exact hP _ _ h
        · rw [applyPatch_all_some]; simp
      · refine ih (i + 1) _ _ _ _ ?_ j a hj
        intro j' a' hj'
        rcases status_mem_double_update hj' with ⟨_, h⟩ | ⟨rfl, b, rfl⟩
        · exact hP _ _ h
        · rw [applyPatch_all_some]; simp

theorem loop_attempts_at_failed (api : Nat → CadApiResult) (stopAt : Option Nat)
    (prompt : String) (f i : Nat) (atts : List Attempt) (b : Attempt) (hb : atts[i]? = some b)
    (p1 p2 : AttemptPatch) (c e : String) (panel : Option (String × String)) :
    (loopFrom api stopAt prompt (i + 1) f
        (updateAttemptStatus (updateAttemptStatus atts (i : Int) p1) (i : Int) p2) c e
        panel).attempts[i]? =
      some (applyPatch (applyPatch b p1) p2) := by
  rw [loop_preserve_lt api stopAt prompt f (i + 1) _ _ _ _ i (by omega),
    updateAttemptStatus_getElem?_self, updateAttemptStatus_getElem?_self, hb]
  rfl

theorem loop_request_spec (api : Nat → CadApiResult) (stopAt : Option Nat) (prompt : String) :
    ∀ (fuel i : Nat) (atts : List Attempt) (c e : String) (panel : Option (String × String)),
      i + fuel ≤ atts.length →
      (∀ r, (loopFrom api stopAt prompt i fuel atts c e panel).requests[0]? = some r →
        r = if i = 0 then CadRequest.generate prompt else CadRequest.fixCode c e prompt)
      ∧ (∀ (j : Nat) (r : CadRequest),
          (loopFrom api stopAt prompt i fuel atts c e panel).requests[j + 1]? = some r →
          ∃ a, (loopFrom api stopAt prompt i fuel atts c e panel).attempts[i + j]? = some a ∧
            a.status = AttemptStatus.failed ∧
            r = CadRequest.fixCode a.codeText a.fullError prompt) := by
  intro fuel
  induction fuel with
  | zero =>
    intro i atts c e panel hlen
    exact ⟨fun r hr => by simp [loopFrom] at hr, fun j r hr => by simp [loopFrom] at hr⟩
  | succ f ih =>
    intro i atts c e panel hlen
    constructor
    · intro r hr
      simp only [loopFrom] at hr
      split at hr
      · simp at hr
      · split at hr
        · simpa using hr.symm
        · simpa using hr.symm
    · intro j r hr
      simp only [loopFrom]
      simp only [loopFrom] at hr
      split at hr
      · simp at hr
      · next hstop =>
        split at hr
        · simp at hr
        · next hfail =>
          rw [if_neg hstop, if_neg hfail]
          simp only [List.getElem?_cons_succ] at hr ⊢
          have hlen2 : i + 1 + f ≤
              (updateAttemptStatus (updateAttemptStatus atts (i : Int)
                ⟨some .running, some "", some "", some ""⟩) (i : Int)
                ⟨some .failed,
                 some (errorSummary (jsTrim (if jsTruthy (api i).error_detail then
                   (api i).error_detail else "CAD execution failed."))),
                 some (jsTrim (if jsTruthy (api i).error_detail then (api i).error_detail
                   else "CAD execution failed.")),
                 some (jsTrim (if jsTruthy (api i).cad_code then (api i).cad_code
                   else c))⟩).length := by
            rw [updateAttemptStatus_length, updateAttemptStatus_length]
            omega
          cases j with
          | zero =>
            have h1 := (ih (i + 1) _ _ _ _ hlen2).1 r hr
            rw [if_neg (by omega)] at h1
            have hi : i < atts.length := by omega
            rcases hb : atts[i]? with _ | b
            · rw [List.getElem?_eq_none_iff] at hb; omega
            · rw [Nat.add_zero]
              exact ⟨_, loop_attempts_at_failed api stopAt prompt f i atts b hb _ _ _ _ _,
                rfl, h1⟩
          | succ j' =>
            have h2 := (ih (i + 1) _ _ _ _ hlen2).2 j' r hr
            rcases h2 with ⟨a, ha, hst, hreq⟩
            refine ⟨a, ?_, hst, hreq⟩
            rw [show i + (j' + 1) = i + 1 + j' by omega]
            exact ha

theorem loop_preserve_ge (api : Nat → CadApiResult) (stopAt : Option Nat) (prompt : String) :
    ∀ (fuel i : Nat) (atts : List Attempt) (c e : String) (panel : Option (String × String))
      (j : Nat), i + fuel ≤ j →
      (loopFrom api stopAt prompt i fuel atts c e panel).attempts[j]? = atts[j]? := by
  intro fuel
  induction fuel with
  | zero =>
    intro i atts c e panel j hj
    simp only [loopFrom]
  | succ f ih =>
    intro i atts c e panel j hj
    simp only [loopFrom]
    split
    · exact updateAttemptStatus_getElem?_ne _ _ _ _ (by omega)
    · split
      · rw [updateAttemptStatus_getElem?_ne _ _ _ _ (by omega),
          updateAttemptStatus_getElem?_ne _ _ _ _ (by omega)]
      · rw [ih _ _ _ _ _ _ (by omega),
          updateAttemptStatus_getElem?_ne _ _ _ _ (by omega),
          updateAttemptStatus_getElem?_ne _ _ _ _ (by omega)]

theorem notStopSeen_none (i : Nat) : ¬ stopSeen none i = true := by simp [stopSeen]

theorem loop_fail_requests_length (api : Nat → CadApiResult) (prompt : String) :
    ∀ (fuel i : Nat) (atts : List Attempt) (c e : String) (panel : Option (String × String)),
      (∀ j, i ≤ j → j < i + fuel → ¬((api j).success = true ∧ (api j).step_file ≠ "")) →
      (loopFrom api none prompt i fuel atts c e panel).requests.length = fuel := by
  intro fuel
  induction fuel with
  | zero =>
    intro i atts c e panel hfail
    simp [loopFrom]
  | succ f ih =>
    intro i atts c e panel hfail
    simp only [loopFrom]
    rw [if_neg (notStopSeen_none i), if_neg (hfail i le_rfl (by omega))]
    simp only [List.length_cons]
    rw [ih _ _ _ _ _ (fun j h1 h2 => hfail j (by omega) (by omega))]

theorem loop_fail_flags (api : Nat → CadApiResult) (prompt : String) :
    ∀ (fuel i : Nat) (atts : List Attempt) (c e : String) (panel : Option (String × String)),
      (∀ j, i ≤ j → j < i + fuel → ¬((api j).success = true ∧ (api j).step_file ≠ "")) →
      (loopFrom api none prompt i fuel atts c e panel).success = false ∧
      (loopFrom api none prompt i fuel atts c e panel).cancelledBreak = false := by
  intro fuel
  induction fuel with
  | zero =>
    intro i atts c e panel hfail
    simp [loopFrom]
  | succ f ih =>
    intro i atts c e panel hfail
    simp only [loopFrom]
    rw [if_neg (notStopSeen_none i), if_neg (hfail i le_rfl (by omega))]
    exact ih _ _ _ _ _ (fun j h1 h2 => hfail j (by omega) (by omega))

theorem loop_fail_status (api : Nat → CadApiResult) (prompt : String) :
    ∀ (fuel i : Nat) (atts : List Attempt) (c e : String) (panel : Option (String × String)),
      i + fuel ≤ atts.length →
      (∀ j, i ≤ j → j < i + fuel → ¬((api j).success = true ∧ (api j).step_file ≠ "")) →
      ∀ j, i ≤ j → j < i + fuel →
        ((loopFrom api none prompt i fuel atts c e panel).attempts[j]?).map Attempt.status =
          some AttemptStatus.failed := by
  intro fuel
  induction fuel with
  | zero =>
    intro i atts c e panel hlen hfail j h1 h2
    omega
  | succ f ih =>
    intro i atts c e panel hlen hfail j h1 h2
    simp only [loopFrom]
    rw [if_neg (notStopSeen_none i), if_neg (hfail i le_rfl (by omega))]
    rcases Nat.eq_or_lt_of_le h1 with heq | hlt
    · subst heq
      have hi : i < atts.length := by omega
      rcases hb : atts[i]? with _ | b
      · rw [List.getElem?_eq_none_iff] at hb; omega
      · rw [loop_preserve_lt api none prompt f (i + 1) _ _ _ _ i (by omega),
          updateAttemptStatus_getElem?_self, updateAttemptStatus_getElem?_self, hb]
        rfl
    · refine ih _ _ _ _ _ ?_ (fun j' ha hb => hfail j' (by omega) (by omega)) j (by omega)
        (by omega)
      rw [updateAttemptStatus_length, updateAttemptStatus_length]
      omega

theorem loop_fail_last (api : Nat → CadApiResult) (prompt : String) :
    ∀ (fuel i : Nat) (atts : List Attempt) (c e : String) (panel : Option (String × String)),
      0 < fuel → i + fuel ≤ atts.length →
      (∀ j, i ≤ j → j < i + fuel → ¬((api j).success = true ∧ (api j).step_file ≠ "")) →
      (loopFrom api none prompt i fuel atts c e panel).panel =
        some (jsTrim (loopFrom api none prompt i fuel atts c e panel).currentError,
          (loopFrom api none prompt i fuel atts c e panel).currentCode) ∧
      (loopFrom api none prompt i fuel atts c e panel).attempts[i + fuel - 1]? =
        some { status := AttemptStatus.failed,
               errorText :=
                 errorSummary (loopFrom api none prompt i fuel atts c e panel).currentError,
               fullError := (loopFrom api none prompt i fuel atts c e panel).currentError,
               codeText := (loopFrom api none prompt i fuel atts c e panel).currentCode } := by
  intro fuel
  induction fuel with
  | zero =>
    intro i atts c e panel hpos
    omega
  | succ f ih =>
    intro i atts c e panel hpos hlen hfail
    simp only [loopFrom]
    rw [if_neg (notStopSeen_none i), if_neg (hfail i le_rfl (by omega))]
    cases f with
    | zero =>
      simp only [loopFrom]
      have hi : i < atts.length := by omega
      rcases hb : atts[i]? with _ | b
      · rw [List.getElem?_eq_none_iff] at hb; omega
      · constructor
        · trivial
        · rw [Nat.add_sub_cancel, updateAttemptStatus_getElem?_self,
            updateAttemptStatus_getElem?_self, hb]
          rfl
    | succ f' =>
      rw [show i + (f' + 1 + 1) - 1 = i + 1 + (f' + 1) - 1 by omega]
      refine ih (i + 1) _ _ _ _ (by omega) ?_ ?_
      · rw [updateAttemptStatus_length, updateAttemptStatus_length]
        omega
      · exact fun j' ha hb => hfail j' (by omega) (by omega)

theorem stopSeen_some_true {k i : Nat} (h : k ≤ i) : stopSeen (some k) i = true := by
  simp [stopSeen, h]

theorem stopSeen_some_false {k i : Nat} (h : i < k) : ¬ stopSeen (some k) i = true := by
  simp [stopSeen]
  omega

theorem loop_cancel_requests_length (api : Nat → CadApiResult) (prompt : String) (k : Nat) :
    ∀ (fuel i : Nat) (atts : List Attempt) (c e : String) (panel : Option (String × String)),
      i ≤ k → k < i + fuel →
      (∀ j, i ≤ j → j < k → ¬((api j).success = true ∧ (api j).step_file ≠ "")) →
      (loopFrom api (some k) prompt i fuel atts c e panel).requests.length = k - i := by
  intro fuel
  induction fuel with
  | zero => intro i atts c e panel h1 h2 hfail; omega
  | succ f ih =>
    intro i atts c e panel h1 h2 hfail
    simp only [loopFrom]
    rcases Nat.eq_or_lt_of_le h1 with heq | hlt
    · subst heq
      rw [if_pos (stopSeen_some_true le_rfl)]
      simp
    · rw [if_neg (stopSeen_some_false hlt), if_neg (hfail i le_rfl hlt)]
      simp only [List.length_cons]
      rw [ih (i + 1) _ _ _ _ (by omega) (by omega)
        (fun j ha hb => hfail j (by omega) (by omega))]
      omega

theorem loop_cancel_flags (api : Nat → CadApiResult) (prompt : String) (k : Nat) :
    ∀ (fuel i : Nat) (atts : List Attempt) (c e : String) (panel : Option (String × String)),
      i ≤ k → k < i + fuel →
      (∀ j, i ≤ j → j < k → ¬((api j).success = true ∧ (api j).step_file ≠ "")) →
      (loopFrom api (some k) prompt i fuel atts c e panel).success = false ∧
      (loopFrom api (some k) prompt i fuel atts c e panel).cancelledBreak = true := by
  intro fuel
  induction fuel with
  | zero => intro i atts c e panel h1 h2 hfail; omega
  | succ f ih =>
    intro i atts c e panel h1 h2 hfail
    simp only [loopFrom]
    rcases Nat.eq_or_lt_of_le h1 with heq | hlt
    · subst heq
      rw [if_pos (stopSeen_some_true le_rfl)]
      exact ⟨rfl, rfl⟩
    · rw [if_neg (stopSeen_some_false hlt), if_neg (hfail i le_rfl hlt)]
      exact ih (i + 1) _ _ _ _ (by omega) (by omega)
        (fun j ha hb => hfail j (by omega) (by omega))

theorem loop_cancel_status_at (api : Nat → CadApiResult) (prompt : String) (k : Nat) :
    ∀ (fuel i : Nat) (atts : List Attempt) (c e : String) (panel : Option (String × String)),
      i ≤ k → k < i + fuel → i + fuel ≤ atts.length →
      (∀ j, i ≤ j → j < k → ¬((api j).success = true ∧ (api j).step_file ≠ "")) →
      ((loopFrom api (some k) prompt i fuel atts c e panel).attempts[k]?).map Attempt.status =
        some AttemptStatus.cancelled := by
  intro fuel
  induction fuel with
  | zero => intro i atts c e panel h1 h2 hlen hfail; omega
  | succ f ih =>
    intro i atts c e panel h1 h2 hlen hfail
    simp only [loopFrom]
    rcases Nat.eq_or_lt_of_le h1 with heq | hlt
    · subst heq
      rw [if_pos (stopSeen_some_true le_rfl)]
      have hi : i < atts.length := by omega
      rcases hb : atts[i]? with _ | b
      · rw [List.getElem?_eq_none_iff] at hb; omega
      · rw [updateAttemptStatus_getElem?_self, hb]
        rfl
    · rw [if_neg (stopSeen_some_false hlt), if_neg (hfail i le_rfl hlt)]
      refine ih (i + 1) _ _ _ _ (by omega) (by omega) ?_
        (fun j ha hb => hfail j (by omega) (by omega))
      rw [updateAttemptStatus_length, updateAttemptStatus_length]
      omega

theorem loop_cancel_status_failed (api : Nat → CadApiResult) (prompt : String) (k : Nat) :
    ∀ (fuel i : Nat) (atts : List Attempt) (c e : String) (panel : Option (String × String)),
      i ≤ k → k < i + fuel → i + fuel ≤ atts.length →
      (∀ j, i ≤ j → j < k → ¬((api j).success = true ∧ (api j).step_file ≠ "")) →
      ∀ j, i ≤ j → j < k →
        ((loopFrom api (some k) prompt i fuel atts c e panel).attempts[j]?).map Attempt.status =
          some AttemptStatus.failed := by
  intro fuel
  induction fuel with
  | zero => intro i atts c e panel h1 h2 hlen hfail j hj1 hj2; omega
  | succ f ih =>
    intro i atts c e panel h1 h2 hlen hfail j hj1 hj2
    simp only [loopFrom]
    have hlt : i < k := by omega
    rw [if_neg (stopSeen_some_false hlt), if_neg (hfail i le_rfl hlt)]
    rcases Nat.eq_or_lt_of_le hj1 with heq | hjlt
    · subst heq
      have hi : i < atts.length := by omega
      rcases hb : atts[i]? with _ | b
      · rw [List.getElem?_eq_none_iff] at hb; omega
      · rw [loop_preserve_lt api (some k) prompt f (i + 1) _ _ _ _ i (by omega),
          updateAttemptStatus_getElem?_self, updateAttemptStatus_getElem?_self, hb]
        rfl
    · refine ih (i + 1) _ _ _ _ (by omega) (by omega) ?_
        (fun j' ha hb => hfail j' (by omega) (by omega)) j (by omega) hj2
      rw [updateAttemptStatus_length, updateAttemptStatus_length]
      omega

theorem loop_cancel_preserve_gt (api : Nat → CadApiResult) (prompt : String) (k : Nat) :
    ∀ (fuel i : Nat) (atts : List Attempt) (c e : String) (panel : Option (String × String)),
      i ≤ k →
      ∀ j, k < j →
        (loopFrom api (some k) prompt i fuel atts c e panel).attempts[j]? = atts[j]? := by
  intro fuel
  induction fuel with
  | zero =>
    intro i atts c e panel h1 j hj
    simp only [loopFrom]
  | succ f ih =>
    intro i atts c e panel h1 j hj
    simp only [loopFrom]
    split
    · exact updateAttemptStatus_getElem?_ne _ _ _ _ (by omega)
    · next hstop =>
      have hlt : i < k := by
        rcases Nat.eq_or_lt_of_le h1 with heq | hlt
        · exact absurd (stopSeen_some_true (by omega)) hstop
        · exact hlt
      split
      · rw [updateAttemptStatus_getElem?_ne _ _ _ _ (by omega),
          updateAttemptStatus_getElem?_ne _ _ _ _ (by omega)]
      · rw [ih (i + 1) _ _ _ _ (by omega) j hj,
          updateAttemptStatus_getElem?_ne _ _ _ _ (by omega),
          updateAttemptStatus_getElem?_ne _ _ _ _ (by omega)]

theorem loop_first_success (api : Nat → CadApiResult) (stopAt : Option Nat) (prompt : String)
    (fuel : Nat) (atts : List Attempt) (c e : String) (panel : Option (String × String))
    (hstop : ¬ stopSeen stopAt 0 = true)
    (hok : (api 0).success = true ∧ (api 0).step_file ≠ "") :
    loopFrom api stopAt prompt 0 (fuel + 1) atts c e panel =
      { attempts := updateAttemptStatus (updateAttemptStatus atts ((0 : Nat) : Int)
          { status := some .running, errorText := some "", fullError := some "",
            codeText := some "" }) ((0 : Nat) : Int)
          { status := some .success, errorText := some "Success", fullError := some "",
            codeText := some (api 0).cad_code },
        requests := [CadRequest.generate prompt], success := true, cancelledBreak := false,
        currentCode := c, currentError := e, panel := none, result := some (api 0) } := by
  simp only [loopFrom]
  rw [if_neg hstop, if_pos hok]
  simp

theorem reset_getElem? (j : Nat) :
    resetCadAttemptsUi[j]? = if j < 10 then some inactiveAttempt else none := by
  unfold resetCadAttemptsUi
  exact List.getElem?_replicate

theorem reset_no_running (j : Nat) (a : Attempt) (hj : resetCadAttemptsUi[j]? = some a) :
    a.status ≠ AttemptStatus.running := by
  rw [reset_getElem?] at hj
  split at hj
  · cases hj; simp [inactiveAttempt]
  · cases hj

theorem reset_no_failed (j : Nat) (a : Attempt) (hj : resetCadAttemptsUi[j]? = some a) :
    a.status = AttemptStatus.failed → a.errorText = errorSummary a.fullError := by
  rw [reset_getElem?] at hj
  split at hj
  · cases hj; intro h; cases h
  · cases hj

theorem generateStepCad_run (ctx : GenCtx) (api : Nat → CadApiResult) (stopAt : Option Nat)
    (prevAttempts : List Attempt) (prevPanel : Option (String × String)) (prevBanner : Bool)
    (hcan : canGenerateStepCadNow ctx = true)
    (hp : jsTruthy (jsTrim ctx.currentStepCadPrompt) = true) :
    generateStepCad ctx api stopAt prevAttempts prevPanel prevBanner =
      { attempts := (loopFrom api stopAt (jsTrim ctx.currentStepCadPrompt) 0 10
          resetCadAttemptsUi "" "" prevPanel).attempts,
        requests := (loopFrom api stopAt (jsTrim ctx.currentStepCadPrompt) 0 10
          resetCadAttemptsUi "" "" prevPanel).requests,
        messages := ["Starting STEP CAD auto-fix attempts (max 10)."]
          ++ (if (!(loopFrom api stopAt (jsTrim ctx.currentStepCadPrompt) 0 10
                resetCadAttemptsUi "" "" prevPanel).success && !stopSeen stopAt 10) then
              ["Unresolved after 10 attempts."] else []),
        unresolvedBanner := !(loopFrom api stopAt (jsTrim ctx.currentStepCadPrompt) 0 10
          resetCadAttemptsUi "" "" prevPanel).success && !stopSeen stopAt 10,
        success := (loopFrom api stopAt (jsTrim ctx.currentStepCadPrompt) 0 10
          resetCadAttemptsUi "" "" prevPanel).success,
        cancelledBreak := (loopFrom api stopAt (jsTrim ctx.currentStepCadPrompt) 0 10
          resetCadAttemptsUi "" "" prevPanel).cancelledBreak,
        panel := (loopFrom api stopAt (jsTrim ctx.currentStepCadPrompt) 0 10
          resetCadAttemptsUi "" "" prevPanel).panel,
        currentCode := (loopFrom api stopAt (jsTrim ctx.currentStepCadPrompt) 0 10
          resetCadAttemptsUi "" "" prevPanel).currentCode,
        currentError := (loopFrom api stopAt (jsTrim ctx.currentStepCadPrompt) 0 10
          resetCadAttemptsUi "" "" prevPanel).currentError,
        result := (loopFrom api stopAt (jsTrim ctx.currentStepCadPrompt) 0 10
          resetCadAttemptsUi "" "" prevPanel).result,
        rejected := false } := by
  unfold generateStepCad
  rw [if_neg (by simp [hcan]), if_neg (by simp [hp])]

/-- C1: in every run of `generateStepCad` at most 10 attempts are executed (at most
10 endpoint calls are issued), the recorded attempt list always holds exactly 10
(hence never more than 10) entries, and `updateAttemptStatus` at an index outside
`0..9` leaves the attempt list unchanged. -/
theorem cad_loop_bounded_attempts (ctx : GenCtx) (api : Nat → CadApiResult)
    (stopAt : Option Nat) (prevAttempts : List Attempt)
    (prevPanel : Option (String × String)) (prevBanner : Bool)
    (hlen : prevAttempts.length = 10) (idx : Int) (patch : AttemptPatch)
    (hidx : idx < 0 ∨ 10 ≤ idx) :
    (generateStepCad ctx api stopAt prevAttempts prevPanel prevBanner).requests.length ≤ 10 ∧
    (generateStepCad ctx api stopAt prevAttempts prevPanel prevBanner).attempts.length = 10 ∧
    updateAttemptStatus prevAttempts idx patch = prevAttempts := by
  refine ⟨?_, ?_, ?_⟩
  · unfold generateStepCad
    split
    · simp
    · dsimp only
      split
      · simp
      · dsimp only
        exact loop_requests_length_le api stopAt _ 10 0 _ _ _ _
  · unfold generateStepCad
    split
    · simpa using hlen
    · dsimp only
      split
      · simpa using hlen
      · dsimp only
        rw [loop_attempts_length]
        simp [resetCadAttemptsUi]
  · apply updateAttemptStatus_out_of_range
    rcases hidx with h | h
    · exact Or.inl h
    · right
      rw [hlen]
      exact_mod_cast h

/-- Witness for `cad_loop_bounded_attempts` at a concrete context, oracle and an
out-of-range index. -/
theorem cad_loop_bounded_attempts_witness :
    (resetCadAttemptsUi.length = 10 ∧ ((-1 : Int) < 0 ∨ 10 ≤ (-1 : Int))) ∧
    ((generateStepCad ctxOk apiAllFail none resetCadAttemptsUi none false).requests.length ≤ 10 ∧
      (generateStepCad ctxOk apiAllFail none resetCadAttemptsUi none false).attempts.length = 10 ∧
      updateAttemptStatus resetCadAttemptsUi (-1)
        { status := some .failed, errorText := none, fullError := none, codeText := none } =
        resetCadAttemptsUi) :=
  ⟨⟨by decide, Or.inl (by decide)⟩,
    cad_loop_bounded_attempts ctxOk apiAllFail none resetCadAttemptsUi none false (by decide)
      (-1) _ (Or.inl (by decide))⟩

/-- C2: in every CAD generation run, attempt 0 calls the generation endpoint with
the (trimmed) prompt, and each later request is a fix-pass call carrying exactly
the prior failed attempt's recorded code text and full error text. -/
theorem cad_loop_fix_pass_inputs (ctx : GenCtx) (api : Nat → CadApiResult)
    (stopAt : Option Nat) (prevAttempts : List Attempt)
    (prevPanel : Option (String × String)) (prevBanner : Bool)
    (hcan : canGenerateStepCadNow ctx = true)
    (hp : jsTruthy (jsTrim ctx.currentStepCadPrompt) = true) :
    (∀ r, (generateStepCad ctx api stopAt prevAttempts prevPanel prevBanner).requests[0]? =
        some r → r = CadRequest.generate (jsTrim ctx.currentStepCadPrompt)) ∧
    (∀ (j : Nat) (r : CadRequest),
      (generateStepCad ctx api stopAt prevAttempts prevPanel prevBanner).requests[j + 1]? =
        some r →
      ∃ a, (generateStepCad ctx api stopAt prevAttempts prevPanel prevBanner).attempts[j]? =
          some a ∧ a.status = AttemptStatus.failed ∧
          r = CadRequest.fixCode a.codeText a.fullError (jsTrim ctx.currentStepCadPrompt)) := by
  rw [generateStepCad_run ctx api stopAt prevAttempts prevPanel prevBanner hcan hp]
  dsimp only
  have h := loop_request_spec api stopAt (jsTrim ctx.currentStepCadPrompt) 10 0
    resetCadAttemptsUi "" "" prevPanel (by simp [resetCadAttemptsUi])
  refine ⟨fun r hr => ?_, fun j r hr => ?_⟩
  · simpa using h.1 r hr
  · simpa using h.2 j r hr

/-- Witness for `cad_loop_fix_pass_inputs`: attempt 0 fails, so request 1 is a
fix-pass carrying attempt 0's code and error. -/
theorem cad_loop_fix_pass_inputs_witness :
    (canGenerateStepCadNow ctxOk = true ∧ jsTruthy (jsTrim ctxOk.currentStepCadPrompt) = true) ∧
    ((∀ r, (generateStepCad ctxOk apiFailThenOk none resetCadAttemptsUi none
        false).requests[0]? = some r →
        r = CadRequest.generate (jsTrim ctxOk.currentStepCadPrompt)) ∧
    (∀ (j : Nat) (r : CadRequest),
      (generateStepCad ctxOk apiFailThenOk none resetCadAttemptsUi none
          false).requests[j + 1]? = some r →
      ∃ a, (generateStepCad ctxOk apiFailThenOk none resetCadAttemptsUi none
            false).attempts[j]? = some a ∧ a.status = AttemptStatus.failed ∧
          r = CadRequest.fixCode a.codeText a.fullError
            (jsTrim ctxOk.currentStepCadPrompt))) :=
  ⟨⟨by decide, by decide⟩,
    cad_loop_fix_pass_inputs ctxOk apiFailThenOk none resetCadAttemptsUi none false
      (by decide) (by decide)⟩

/-- C7: when the precondition of `generateStepCad` fails (no approved version,
another operation in flight, or the loop already running) the call is rejected
with a system message and mutates nothing: the attempt list, the issue panel and
the banner are unchanged and no endpoint request is issued. -/
theorem cad_generate_precondition_rejected (ctx : GenCtx) (api : Nat → CadApiResult)
    (stopAt : Option Nat) (prevAttempts : List Attempt)
    (prevPanel : Option (String × String)) (prevBanner : Bool)
    (h : numTruthy ctx.approved_image_version = false ∨ ctx.operationInFlight = true ∨
      ctx.stepCadLoopRunning = true) :
    canGenerateStepCadNow ctx = false ∧
    generateStepCad ctx api stopAt prevAttempts prevPanel prevBanner =
      { attempts := prevAttempts, requests := [], messages := [rejectMessage ctx],
        unresolvedBanner := prevBanner, success := false, cancelledBreak := false,
        panel := prevPanel, currentCode := "", currentError := "", result := none,
        rejected := true } := by
  have hcan : canGenerateStepCadNow ctx = false := by
    unfold canGenerateStepCadNow
    split
    · rfl
    · rcases h with h | h | h <;> simp [h]
  refine ⟨hcan, ?_⟩
  unfold generateStepCad
  rw [if_pos (by simp [hcan])]

/-- Witness for `cad_generate_precondition_rejected`: another operation is in
flight, so the call changes nothing. -/
theorem cad_generate_precondition_rejected_witness :
    (numTruthy ctxBusy.approved_image_version = false ∨ ctxBusy.operationInFlight = true ∨
      ctxBusy.stepCadLoopRunning = true) ∧
    (canGenerateStepCadNow ctxBusy = false ∧
    generateStepCad ctxBusy apiAllFail none resetCadAttemptsUi none false =
      { attempts := resetCadAttemptsUi, requests := [], messages := [rejectMessage ctxBusy],
        unresolvedBanner := false, success := false, cancelledBreak := false,
        panel := none, currentCode := "", currentError := "", result := none,
        rejected := true }) :=
  ⟨Or.inr (Or.inl (by decide)),
    cad_generate_precondition_rejected ctxBusy apiAllFail none resetCadAttemptsUi none false
      (Or.inr (Or.inl (by decide)))⟩

/-- C3: when the stop flag is set before attempt `k` starts (all earlier attempts
having failed), attempt `k` is marked `cancelled` and issues no request, no
attempt is ever left marked `running`, every started attempt ran to a `failed`
completion, and the loop stops reporting a cancelled break. -/
theorem cad_loop_cancellation (ctx : GenCtx) (api : Nat → CadApiResult) (k : Nat)
    (prevAttempts : List Attempt) (prevPanel : Option (String × String)) (prevBanner : Bool)
    (hcan : canGenerateStepCadNow ctx = true)
    (hp : jsTruthy (jsTrim ctx.currentStepCadPrompt) = true) (hk : k ≤ 9)
    (hfail : ∀ j, j < k → ¬((api j).success = true ∧ (api j).step_file ≠ "")) :
    ((generateStepCad ctx api (some k) prevAttempts prevPanel prevBanner).attempts[k]?).map
        Attempt.status = some AttemptStatus.cancelled ∧
    (generateStepCad ctx api (some k) prevAttempts prevPanel prevBanner).requests.length = k ∧
    (∀ (j : Nat) (a : Attempt),
      (generateStepCad ctx api (some k) prevAttempts prevPanel prevBanner).attempts[j]? =
        some a → a.status ≠ AttemptStatus.running) ∧
    (∀ j, j < k →
      ((generateStepCad ctx api (some k) prevAttempts prevPanel prevBanner).attempts[j]?).map
        Attempt.status = some AttemptStatus.failed) ∧
    (generateStepCad ctx api (some k) prevAttempts prevPanel prevBanner).success = false ∧
    (generateStepCad ctx api (some k) prevAttempts prevPanel prevBanner).cancelledBreak =
      true := by
  rw [generateStepCad_run ctx api (some k) prevAttempts prevPanel prevBanner hcan hp]
  dsimp only
  have hfail' : ∀ j, 0 ≤ j → j < k →
      ¬((api j).success = true ∧ (api j).step_file ≠ "") := fun j _ h2 => hfail j h2
  refine ⟨?_, ?_, ?_, ?_, ?_, ?_⟩
  · exact loop_cancel_status_at api _ k 10 0 _ _ _ _ (Nat.zero_le k) (by omega)
      (by simp [resetCadAttemptsUi]) hfail'
  · simpa using loop_cancel_requests_length api _ k 10 0 _ _ _ _ (Nat.zero_le k) (by omega)
      hfail'
  · exact loop_no_running api (some k) _ 10 0 _ _ _ _ reset_no_running
  · exact fun j hj => loop_cancel_status_failed api _ k 10 0 _ _ _ _ (Nat.zero_le k)
      (by omega) (by simp [resetCadAttemptsUi]) hfail' j (Nat.zero_le j) hj
  · exact (loop_cancel_flags api _ k 10 0 _ _ _ _ (Nat.zero_le k) (by omega) hfail').1
  · exact (loop_cancel_flags api _ k 10 0 _ _ _ _ (Nat.zero_le k) (by omega) hfail').2

/-- Witness for `cad_loop_cancellation`: the stop button is clicked before attempt 2
of an all-failing run. -/
theorem cad_loop_cancellation_witness :
    (canGenerateStepCadNow ctxOk = true ∧ jsTruthy (jsTrim ctxOk.currentStepCadPrompt) = true ∧
      (2 : Nat) ≤ 9) ∧
    (((generateStepCad ctxOk apiAllFail (some 2) resetCadAttemptsUi none
        false).attempts[2]?).map Attempt.status = some AttemptStatus.cancelled ∧
    (generateStepCad ctxOk apiAllFail (some 2) resetCadAttemptsUi none
      false).requests.length = 2 ∧
    (∀ (j : Nat) (a : Attempt),
      (generateStepCad ctxOk apiAllFail (some 2) resetCadAttemptsUi none
        false).attempts[j]? = some a → a.status ≠ AttemptStatus.running) ∧
    (∀ j, j < 2 →
      ((generateStepCad ctxOk apiAllFail (some 2) resetCadAttemptsUi none
        false).attempts[j]?).map Attempt.status = some AttemptStatus.failed) ∧
    (generateStepCad ctxOk apiAllFail (some 2) resetCadAttemptsUi none false).success =
      false ∧
    (generateStepCad ctxOk apiAllFail (some 2) resetCadAttemptsUi none
      false).cancelledBreak = true) :=
  ⟨⟨by decide, by decide, by decide⟩,
    cad_loop_cancellation ctxOk apiAllFail 2 resetCadAttemptsUi none false (by decide)
      (by decide) (by decide)
      (fun j hj => by simp [apiAllFail, failRes])⟩

/-- C4: when all 10 attempts fail and no cancellation happens, the run reports no
success, shows the unresolved banner and message, marks all 10 attempts `failed`,
and the last attempt's full error text and generated code stay stored in the
attempt record and shown in the execution-issue panel. -/
theorem cad_loop_unresolved (ctx : GenCtx) (api : Nat → CadApiResult)
    (prevAttempts : List Attempt) (prevPanel : Option (String × String)) (prevBanner : Bool)
    (hcan : canGenerateStepCadNow ctx = true)
    (hp : jsTruthy (jsTrim ctx.currentStepCadPrompt) = true)
    (hfail : ∀ j, j < 10 → ¬((api j).success = true ∧ (api j).step_file ≠ "")) :
    (generateStepCad ctx api none prevAttempts prevPanel prevBanner).success = false ∧
    (generateStepCad ctx api none prevAttempts prevPanel prevBanner).unresolvedBanner = true ∧
    "Unresolved after 10 attempts." ∈
      (generateStepCad ctx api none prevAttempts prevPanel prevBanner).messages ∧
    (∀ j, j < 10 →
      ((generateStepCad ctx api none prevAttempts prevPanel prevBanner).attempts[j]?).map
        Attempt.status = some AttemptStatus.failed) ∧
    (∃ a, (generateStepCad ctx api none prevAttempts prevPanel prevBanner).attempts[9]? =
        some a ∧ a.status = AttemptStatus.failed ∧
      (generateStepCad ctx api none prevAttempts prevPanel prevBanner).panel =
        some (jsTrim a.fullError, a.codeText)) := by
  rw [generateStepCad_run ctx api none prevAttempts prevPanel prevBanner hcan hp]
  dsimp only
  have hfail' : ∀ j, 0 ≤ j → j < 0 + 10 →
      ¬((api j).success = true ∧ (api j).step_file ≠ "") := fun j _ h2 => hfail j (by omega)
  have hflags := loop_fail_flags api (jsTrim ctx.currentStepCadPrompt) 10 0
    resetCadAttemptsUi "" "" prevPanel hfail'
  have hlast := loop_fail_last api (jsTrim ctx.currentStepCadPrompt) 10 0
    resetCadAttemptsUi "" "" prevPanel (by omega) (by simp [resetCadAttemptsUi]) hfail'
  refine ⟨hflags.1, ?_, ?_, ?_, ?_⟩
  · simp [hflags.1, stopSeen]
  · simp [hflags.1, stopSeen]
  · exact fun j hj => loop_fail_status api _ 10 0 _ _ _ _ (by simp [resetCadAttemptsUi])
      hfail' j (Nat.zero_le j) (by omega)
  · exact ⟨_, by simpa using hlast.2, rfl, hlast.1⟩

/-- Witness for `cad_loop_unresolved`: ten consecutive failures. -/
theorem cad_loop_unresolved_witness :
    (canGenerateStepCadNow ctxOk = true ∧
      jsTruthy (jsTrim ctxOk.currentStepCadPrompt) = true) ∧
    ((generateStepCad ctxOk apiAllFail none resetCadAttemptsUi none false).success = false ∧
    (generateStepCad ctxOk apiAllFail none resetCadAttemptsUi none false).unresolvedBanner =
      true ∧
    "Unresolved after 10 attempts." ∈
      (generateStepCad ctxOk apiAllFail none resetCadAttemptsUi none false).messages ∧
    (∀ j, j < 10 →
      ((generateStepCad ctxOk apiAllFail none resetCadAttemptsUi none
        false).attempts[j]?).map Attempt.status = some AttemptStatus.failed) ∧
    (∃ a, (generateStepCad ctxOk apiAllFail none resetCadAttemptsUi none
        false).attempts[9]? = some a ∧ a.status = AttemptStatus.failed ∧
      (generateStepCad ctxOk apiAllFail none resetCadAttemptsUi none false).panel =
        some (jsTrim a.fullError, a.codeText))) :=
  ⟨⟨by decide, by decide⟩,
    cad_loop_unresolved ctxOk apiAllFail resetCadAttemptsUi none false (by decide) (by decide)
      (fun j hj => by simp [apiAllFail, failRes])⟩

theorem errorSummary_eq (text : String) :
    errorSummary text = jsSlice (jsSplitHead (jsTrim text) '\n') 140 := by
  unfold errorSummary
  dsimp only
  split
  · next h =>
    have ht : jsTrim text = "" := by
      by_contra hne
      exact h (jsTruthy_iff.mpr hne)
    rw [ht]
    decide
  · rfl

theorem errorSummary_length_le (text : String) : (errorSummary text).length ≤ 140 := by
  unfold errorSummary
  dsimp only
  split
  · simp [String.length]
  · simp only [jsSlice, String.length, List.length_take]
    omega

theorem loop_summary_invariant (api : Nat → CadApiResult) (stopAt : Option Nat)
    (prompt : String) :
    ∀ (fuel i : Nat) (atts : List Attempt) (c e : String) (panel : Option (String × String)),
      (∀ (j : Nat) (a : Attempt), atts[j]? = some a → a.status = AttemptStatus.failed →
        a.errorText = errorSummary a.fullError) →
      ∀ (j : Nat) (a : Attempt),
        (loopFrom api stopAt prompt i fuel atts c e panel).attempts[j]? = some a →
        a.status = AttemptStatus.failed → a.errorText = errorSummary a.fullError := by
  intro fuel
  induction fuel with
  | zero =>
    intro i atts c e panel hP j a hj
    simp only [loopFrom] at hj
    exact hP j a hj
  | succ f ih =>
    intro i atts c e panel hP j a hj
    simp only [loopFrom] at hj
    split at hj <;> try dsimp only at hj
    · rcases status_mem_update hj with ⟨_, h⟩ | ⟨rfl, b, hb, rfl⟩
      · exact hP _ _ h
      · intro hst
        rw [applyPatch_status_only] at hst
        simp at hst
    · split at hj
      · rcases status_mem_double_update hj with ⟨_, h⟩ | ⟨rfl, b, rfl⟩
        · exact hP _ _ h
        · intro hst
          rw [applyPatch_all_some] at hst
          simp at hst
      · refine ih (i + 1) _ _ _ _ ?_ j a hj
        intro j' a' hj'
        rcases status_mem_double_update hj' with ⟨_, h⟩ | ⟨rfl, b, rfl⟩
        · exact hP _ _ h
        · rw [applyPatch_all_some]
          intro _
          rfl

/-- C8: `errorSummary` is the first line of the trimmed error text cut to at most
140 characters, and every attempt the loop marks `failed` stores that summary as
`errorText` while the full untruncated error text stays in `fullError`. -/
theorem cad_failed_attempt_summary (ctx : GenCtx) (api : Nat → CadApiResult)
    (stopAt : Option Nat) (prevAttempts : List Attempt)
    (prevPanel : Option (String × String)) (prevBanner : Bool)
    (hprev : ∀ (j : Nat) (a : Attempt), prevAttempts[j]? = some a →
      a.status = AttemptStatus.failed → a.errorText = errorSummary a.fullError) :
    (∀ text, errorSummary text = jsSlice (jsSplitHead (jsTrim text) '\n') 140 ∧
      (errorSummary text).length ≤ 140) ∧
    (∀ (j : Nat) (a : Attempt),
      (generateStepCad ctx api stopAt prevAttempts prevPanel prevBanner).attempts[j]? =
        some a → a.status = AttemptStatus.failed →
      a.errorText = errorSummary a.fullError ∧ a.errorText.length ≤ 140) := by
  refine ⟨fun text => ⟨errorSummary_eq text, errorSummary_length_le text⟩, ?_⟩
  intro j a hj hst
  have key : a.errorText = errorSummary a.fullError := by
    unfold generateStepCad at hj
    split at hj
    · dsimp only at hj
      exact hprev j a hj hst
    · dsimp only at hj
      split at hj
      · dsimp only at hj
        exact hprev j a hj hst
      · dsimp only at hj
        exact loop_summary_invariant api stopAt _ 10 0 _ _ _ _ reset_no_failed j a hj hst
  refine ⟨key, ?_⟩
  rw [key]
  exact errorSummary_length_le _

/-- Witness for `cad_failed_attempt_summary` at a concrete all-failing run starting
from a freshly reset attempt list. -/
theorem cad_failed_attempt_summary_witness :
    (∀ (j : Nat) (a : Attempt), resetCadAttemptsUi[j]? = some a →
      a.status = AttemptStatus.failed → a.errorText = errorSummary a.fullError) ∧
    ((∀ text, errorSummary text = jsSlice (jsSplitHead (jsTrim text) '\n') 140 ∧
      (errorSummary text).length ≤ 140) ∧
    (∀ (j : Nat) (a : Attempt),
      (generateStepCad ctxOk apiAllFail none resetCadAttemptsUi none
        false).attempts[j]? = some a → a.status = AttemptStatus.failed →
      a.errorText = errorSummary a.fullError ∧ a.errorText.length ≤ 140)) :=
  ⟨reset_no_failed,
    cad_failed_attempt_summary ctxOk apiAllFail none resetCadAttemptsUi none false
      reset_no_failed⟩

theorem dataPrefix_http_dataimage :
    ("data:image" : String).data <+: ("data:image/png;base64," : String).data :=
  ⟨("/png;base64," : String).data, by decide⟩

theorem normalizeImageSource_of_startsWith (v : String)
    (h : (jsStartsWith v "http" || jsStartsWith v "data:image") = true) :
    normalizeImageSource v = v := by
  rcases eq_or_ne v "" with rfl | hv
  · exact absurd h (by decide)
  · unfold normalizeImageSource
    rw [if_neg (by simp [jsTruthy_iff.mpr hv]), if_pos h]

theorem normalizeImageSource_of_other (v : String) (hv : v ≠ "")
    (h : (jsStartsWith v "http" || jsStartsWith v "data:image") = false) :
    normalizeImageSource v = "data:image/png;base64," ++ v := by
  unfold normalizeImageSource
  rw [if_neg (by simp [jsTruthy_iff.mpr hv]), if_neg (by simp [h])]

/-- C10: `normalizeImageSource` is idempotent; inputs already starting with
`"http"` or `"data:image"` are returned unchanged, the falsy input maps to `""`,
and any other non-empty string gains exactly one `"data:image/png;base64,"`
prefix. -/
theorem normalizeImageSource_spec :
    (∀ v, normalizeImageSource (normalizeImageSource v) = normalizeImageSource v) ∧
    (∀ v, (jsStartsWith v "http" || jsStartsWith v "data:image") = true →
      normalizeImageSource v = v) ∧
    normalizeImageSource "" = "" ∧
    (∀ v, v ≠ "" → (jsStartsWith v "http" || jsStartsWith v "data:image") = false →
      normalizeImageSource v = "data:image/png;base64," ++ v) := by
  refine ⟨?_, normalizeImageSource_of_startsWith, by decide, normalizeImageSource_of_other⟩
  intro v
  rcases eq_or_ne v "" with rfl | hv
  · decide
  · rcases hS : (jsStartsWith v "http" || jsStartsWith v "data:image") with _ | _
    · rw [normalizeImageSource_of_other v hv hS]
      apply normalizeImageSource_of_startsWith
      rw [jsStartsWith_of_extend dataPrefix_http_dataimage, Bool.or_true]
    · rw [normalizeImageSource_of_startsWith v hS]
      exact normalizeImageSource_of_startsWith v hS

/-- Witness for `normalizeImageSource_spec` at concrete inputs. -/
theorem normalizeImageSource_spec_witness :
    ((jsStartsWith "http://x" "http" || jsStartsWith "http://x" "data:image") = true ∧
      ("abc" : String) ≠ "" ∧
      (jsStartsWith "abc" "http" || jsStartsWith "abc" "data:image") = false) ∧
    (normalizeImageSource (normalizeImageSource "abc") = normalizeImageSource "abc" ∧
      normalizeImageSource "http://x" = "http://x" ∧
      normalizeImageSource "" = "" ∧
      normalizeImageSource "abc" = "data:image/png;base64," ++ "abc") :=
  ⟨⟨by decide, by decide, by decide⟩,
    normalizeImageSource_spec.1 "abc",
    normalizeImageSource_spec.2.1 "http://x" (by decide),
    normalizeImageSource_spec.2.2.1,
    normalizeImageSource_spec.2.2.2 "abc" (by decide) (by decide)⟩

/-- C9: the baseline floor is the constant 3000 ms; before the real refresh call
only the loading-state change happens (no artificial delay), and after the call
the trace waits exactly `max 0 (3000 - elapsed)` ms — nothing when the call
already took 3000 ms or more, and `3000 - elapsed` ms otherwise, placed after the
call. -/
theorem baseline_floor_wait (elapsed : Nat) :
    BASELINE_MIN_DELAY_MS = 3000 ∧
    (refreshSessionWithBaselineDelay elapsed).takeWhile
        (fun ev => ev != BaselineEvent.refreshCall) = [BaselineEvent.setLoading true] ∧
    waitTotal (refreshSessionWithBaselineDelay elapsed) =
      (max 0 ((3000 : Int) - (elapsed : Int))).toNat ∧
    (3000 ≤ elapsed → (refreshSessionWithBaselineDelay elapsed).filter isFloorWait = []) ∧
    (elapsed < 3000 →
      refreshSessionWithBaselineDelay elapsed =
        [BaselineEvent.setLoading true, BaselineEvent.refreshCall,
         BaselineEvent.floorWait (3000 - elapsed), BaselineEvent.setLoading false]) := by
  unfold refreshSessionWithBaselineDelay BASELINE_MIN_DELAY_MS
  dsimp only
  by_cases h : elapsed < 3000
  · rw [if_pos (by omega)]
    refine ⟨rfl, by rfl, ?_, by omega, fun _ => ?_⟩
    · simp [waitTotal]
      try omega
    · simp
      try omega
  · rw [if_neg (by omega)]
    refine ⟨rfl, by rfl, ?_, fun _ => by simp [isFloorWait], by omega⟩
    simp [waitTotal]
    try omega

/-- Witness for `baseline_floor_wait`: a 1200 ms refresh call is padded with an
1800 ms floor wait placed after the call, and a 3500 ms call gets no wait. -/
theorem baseline_floor_wait_witness :
    BASELINE_MIN_DELAY_MS = 3000 ∧
    (refreshSessionWithBaselineDelay 1200).takeWhile
        (fun ev => ev != BaselineEvent.refreshCall) = [BaselineEvent.setLoading true] ∧
    waitTotal (refreshSessionWithBaselineDelay 1200) =
      (max 0 ((3000 : Int) - (1200 : Int))).toNat ∧
    refreshSessionWithBaselineDelay 1200 =
      [BaselineEvent.setLoading true, BaselineEvent.refreshCall,
       BaselineEvent.floorWait 1800, BaselineEvent.setLoading false] ∧
    (refreshSessionWithBaselineDelay 3500).filter isFloorWait = [] := by
  refine ⟨(baseline_floor_wait 1200).1, (baseline_floor_wait 1200).2.1,
    (baseline_floor_wait 1200).2.2.1, ?_, (baseline_floor_wait 3500).2.2.2.1 (by omega)⟩
  exact (baseline_floor_wait 1200).2.2.2.2 (by omega)

/-- C6: when an approved version exists, generating a new image nulls
`approved_image_version` (both in the immediate local update and in the state
after refresh), clears the downstream CAD result fields, and keeps every
previously stored image version, appending the new one. -/
theorem generate2D_invalidates_approval (uiState backendState : SessionState)
    (rid rdata : String) (rver : Nat) (prompt : String)
    (_happroved : numTruthy uiState.approved_image_version = true) :
    ((generate2D uiState backendState rid rdata rver prompt).1.approved_image_version = none ∧
     (generate2D uiState backendState rid rdata rver prompt).1.approved_image_id = none ∧
     (generate2D uiState backendState rid rdata rver prompt).1.images =
       uiState.images ++ [⟨rid, rdata, rver, prompt⟩]) ∧
    ((generate2D uiState backendState rid rdata rver prompt).2.approved_image_version = none ∧
     (generate2D uiState backendState rid rdata rver prompt).2.cad_step_file = none ∧
     (generate2D uiState backendState rid rdata rver prompt).2.cad_model_code = none ∧
     (generate2D uiState backendState rid rdata rver prompt).2.cad_model_last_error = none ∧
     (generate2D uiState backendState rid rdata rver prompt).2.cad_sheet_image_url_or_base64 =
       none ∧
     (generate2D uiState backendState rid rdata rver prompt).2.images =
       backendState.images ++ [⟨rid, rdata, rver, prompt⟩]) :=
  ⟨⟨rfl, rfl, rfl⟩, rfl, rfl, rfl, rfl, rfl, rfl⟩

/-- Witness for `generate2D_invalidates_approval`: generating image version 3
after version 2 was approved. -/
theorem generate2D_invalidates_approval_witness :
    numTruthy sessionApproved.approved_image_version = true ∧
    (((generate2D sessionApproved sessionApproved "img3" "d3" 3
        "p3").1.approved_image_version = none ∧
      (generate2D sessionApproved sessionApproved "img3" "d3" 3 "p3").1.approved_image_id =
        none ∧
      (generate2D sessionApproved sessionApproved "img3" "d3" 3 "p3").1.images =
        sessionApproved.images ++ [⟨"img3", "d3", 3, "p3"⟩]) ∧
    ((generate2D sessionApproved sessionApproved "img3" "d3" 3
        "p3").2.approved_image_version = none ∧
      (generate2D sessionApproved sessionApproved "img3" "d3" 3 "p3").2.cad_step_file =
        none ∧
      (generate2D sessionApproved sessionApproved "img3" "d3" 3 "p3").2.cad_model_code =
        none ∧
      (generate2D sessionApproved sessionApproved "img3" "d3" 3 "p3").2.cad_model_last_error =
        none ∧
      (generate2D sessionApproved sessionApproved "img3" "d3" 3
        "p3").2.cad_sheet_image_url_or_base64 = none ∧
      (generate2D sessionApproved sessionApproved "img3" "d3" 3 "p3").2.images =
        sessionApproved.images ++ [⟨"img3", "d3", 3, "p3"⟩])) :=
  ⟨by decide,
    generate2D_invalidates_approval sessionApproved sessionApproved "img3" "d3" 3 "p3"
      (by decide)⟩

/-- Counterexample to C5 as stated: the second invocation with unchanged artifact
and prompt does return the cached result (`cached=true`) and records a single
successful attempt, but it re-runs attempt 0 (one request is issued) and
overwrites the recorded history: the attempt list after the second run differs
from the first run's list (`resetCadAttemptsUi` runs on every invocation). -/
theorem cad_cache_rerun_counterexample :
    (secondRun.result).map CadApiResult.cached = some true ∧
    secondRun.requests = [CadRequest.generate "p"] ∧
    secondRun.attempts ≠ firstRun.attempts := by decide

/-- C5 (amended): re-invoking CAD generation with an unchanged approved artifact
and unchanged prompt hits the cache — the first success stores the entry under
`hash(artifact, trim(prompt))` and the second call returns it with `cached=true` —
and the second run records exactly one successful attempt (index 0, with the nine
other slots freshly inactive); the frontend however resets and re-records the
`cad_attempts` list on every invocation instead of leaving the stored history
untouched. -/
theorem cad_cache_second_call (ctx : GenCtx)
    (cache : List ((String × String) × (String × String))) (aid p2 : String)
    (runRes res : CadApiResult) (stopAt : Option Nat) (prevAttempts : List Attempt)
    (prevPanel : Option (String × String)) (prevBanner : Bool)
    (cache0 : List ((String × String) × (String × String))) (run0 : CadApiResult)
    (hcan : canGenerateStepCadNow ctx = true)
    (hp : jsTruthy (jsTrim ctx.currentStepCadPrompt) = true)
    (hstop : ¬ stopSeen stopAt 0 = true)
    (hres : res = (backendCadGenerate cache aid p2 runRes).1)
    (hhit : ∃ entry, cacheLookup cache (cacheKey aid p2) = some entry ∧ entry.1 ≠ "")
    (hmiss : cacheLookup cache0 (cacheKey aid p2) = none)
    (hok0 : run0.success = true ∧ run0.step_file ≠ "") :
    cacheLookup (backendCadGenerate cache0 aid p2 run0).2 (cacheKey aid p2) =
      some (run0.step_file, run0.cad_code) ∧
    res.cached = true ∧
    (generateStepCad ctx (fun _ => res) stopAt prevAttempts prevPanel prevBanner).success =
      true ∧
    (generateStepCad ctx (fun _ => res) stopAt prevAttempts prevPanel prevBanner).requests =
      [CadRequest.generate (jsTrim ctx.currentStepCadPrompt)] ∧
    (generateStepCad ctx (fun _ => res) stopAt prevAttempts prevPanel
      prevBanner).attempts.length = 10 ∧
    ((generateStepCad ctx (fun _ => res) stopAt prevAttempts prevPanel
      prevBanner).attempts[0]?).map Attempt.status = some AttemptStatus.success ∧
    (∀ j, 1 ≤ j → j < 10 →
      ((generateStepCad ctx (fun _ => res) stopAt prevAttempts prevPanel
        prevBanner).attempts[j]?).map Attempt.status = some AttemptStatus.inactive) := by
  obtain ⟨entry, hent, hne⟩ := hhit
  have hres' : res =
      { success := true, step_file := entry.1, cad_code := entry.2, error_detail := "",
        cached := true, message := "Returned cached STEP model." } := by
    rw [hres]
    simp only [backendCadGenerate]
    rw [hent]
  have hok : res.success = true ∧ res.step_file ≠ "" := by
    rw [hres']
    exact ⟨rfl, hne⟩
  refine ⟨?_, by rw [hres'], ?_, ?_, ?_, ?_, ?_⟩
  · simp only [backendCadGenerate]
    rw [hmiss]
    dsimp only
    rw [if_pos hok0]
    simp [cacheLookup]
  all_goals
    rw [generateStepCad_run ctx (fun _ => res) stopAt prevAttempts prevPanel prevBanner
      hcan hp]
    dsimp only
    rw [show (10 : Nat) = 9 + 1 from rfl,
      loop_first_success (fun _ => res) stopAt (jsTrim ctx.currentStepCadPrompt) 9
        resetCadAttemptsUi "" "" prevPanel hstop hok]
  all_goals try rfl
  all_goals
    intro j h1 h2
    rw [updateAttemptStatus_getElem?_ne _ _ _ _ (by omega),
      updateAttemptStatus_getElem?_ne _ _ _ _ (by omega), reset_getElem?, if_pos h2]
    rfl

/-- Witness for `cad_cache_second_call`: the populated cache of `cacheAfterFirst`
answers the second call. -/
theorem cad_cache_second_call_witness :
    (canGenerateStepCadNow ctxOk = true ∧
      jsTruthy (jsTrim ctxOk.currentStepCadPrompt) = true ∧
      cacheLookup [] (cacheKey "art1" "p") = none ∧
      okRes.success = true ∧ okRes.step_file ≠ "") ∧
    (cacheLookup (backendCadGenerate [] "art1" "p" okRes).2 (cacheKey "art1" "p") =
      some (okRes.step_file, okRes.cad_code) ∧
    (apiSecond 0).cached = true ∧
    (generateStepCad ctxOk (fun _ => apiSecond 0) none firstRun.attempts firstRun.panel
      firstRun.unresolvedBanner).success = true ∧
    (generateStepCad ctxOk (fun _ => apiSecond 0) none firstRun.attempts firstRun.panel
      firstRun.unresolvedBanner).requests =
      [CadRequest.generate (jsTrim ctxOk.currentStepCadPrompt)] ∧
    (generateStepCad ctxOk (fun _ => apiSecond 0) none firstRun.attempts firstRun.panel
      firstRun.unresolvedBanner).attempts.length = 10 ∧
    ((generateStepCad ctxOk (fun _ => apiSecond 0) none firstRun.attempts firstRun.panel
      firstRun.unresolvedBanner).attempts[0]?).map Attempt.status =
      some AttemptStatus.success ∧
    (∀ j, 1 ≤ j → j < 10 →
      ((generateStepCad ctxOk (fun _ => apiSecond 0) none firstRun.attempts firstRun.panel
        firstRun.unresolvedBanner).attempts[j]?).map Attempt.status =
      some AttemptStatus.inactive)) :=
  ⟨⟨by decide, by decide, by decide, by decide, by decide⟩,
    cad_cache_second_call ctxOk cacheAfterFirst "art1" "p" failRes (apiSecond 0) none
      firstRun.attempts firstRun.panel firstRun.unresolvedBanner [] okRes (by decide)
      (by decide) (by decide) rfl ⟨(okRes.step_file, okRes.cad_code), by decide, by decide⟩
      (by decide) ⟨by decide, by decide⟩⟩

end PackDesign
